import Mathlib

/-!
Shallow embedding of `WinRoute_EnsureTopMetric` from
`src/windows/winroute/src/winroute/winroute.cpp`.

The function is a thin exception-to-status-code adapter: inside a `try`
block it constructs a fresh `NetworkInterfaces` collaborator, calls
`SetTopMetricForInterfaceByAlias(deviceAlias)`, and maps the boolean to
`1`/`0`; a `catch (std::exception &err)` clause invokes the caller
supplied `errorSink(err.what(), errorSinkContext)` when the sink is
non-null and returns `-1`; a `catch (...)` clause returns `-1` silently.

The collaborator is external (its code is not in the repository), so its
behavior on a given alias is modelled as a parameter: it either returns a
boolean, or throws a C++ exception, and the throw may happen already in
the `NetworkInterfaces` constructor or in the lookup/update call itself.
An exception is `typed` when it derives from `std::exception` (carrying
the `what()` message the catch clause can read) and `untyped` otherwise.

Invocations of the error sink are recorded as a list of
(message, context) pairs in the order they happen, so that "invoked at
most once", "with this message" and "with this context" are provable
statements. The adapter returns `Except CppExc (CallResult Ctx)`: a
propagated exception would show up as `.error`, so totality of the catch
policy is a theorem rather than a modelling artifact. The `int32_t`
status is modelled as `Int`; the only values produced are `1`, `0`, `-1`,
all far inside the 32-bit range, so no wrap-around arises.
-/

namespace WinRoute

/-- A C++ exception as the two catch clauses of the adapter can see it:
either it derives from `std::exception`, carrying the `what()` message,
or it is any other thrown value, about which `catch (...)` learns
nothing. -/
inductive CppExc where
  | typed (msg : String)
  | untyped
deriving DecidableEq, Repr

/-- Behavior of the external collaborator during the `try` block for one
call: the `NetworkInterfaces` constructor may throw; otherwise
`SetTopMetricForInterfaceByAlias` either returns a boolean or throws. -/
inductive CollabBehavior where
  | ctorRaise (e : CppExc)
  | callReturn (b : Bool)
  | callRaise (e : CppExc)
deriving DecidableEq, Repr

/-- Outcome of the `try` block body (lines 17-20 of the source): an
exception from either the constructor or the call escapes the block;
otherwise the boolean `metrics_set` is produced. -/
def tryBody : CollabBehavior → Except CppExc Bool
  | .ctorRaise e => .error e
  | .callReturn b => .ok b
  | .callRaise e => .error e

/-- Observable result of one adapter call: the returned `int32_t` status
and the recorded error-sink invocations, each the (message, context)
pair passed to the sink, in invocation order. `Ctx` is the type of the
opaque `void*` context pointer. -/
structure CallResult (Ctx : Type) where
  status : Int
  sinkCalls : List (String × Ctx)
deriving DecidableEq, Repr

/-- Embedding of `WinRoute_EnsureTopMetric` (winroute.cpp lines 11-34).
`errorSinkNonNull` is the `nullptr != errorSink` test on the function
pointer; the alias itself only matters through the collaborator behavior
it induces, which is the `behavior` parameter. The outer `Except` is the
C++ exception channel to the caller: `.error` would mean an exception
propagated past the adapter. -/
def WinRoute_EnsureTopMetric {Ctx : Type} (behavior : CollabBehavior)
    (errorSinkNonNull : Bool) (errorSinkContext : Ctx) :
    Except CppExc (CallResult Ctx) :=
  match tryBody behavior with
  | .ok metrics_set =>
      .ok ⟨if metrics_set then 1 else 0, []⟩
  | .error (CppExc.typed msg) =>
      .ok ⟨-1, if errorSinkNonNull then [(msg, errorSinkContext)] else []⟩
  | .error CppExc.untyped =>
      .ok ⟨-1, []⟩

/-- Status component of an adapter call outcome; `none` when an exception
propagated to the caller instead of a normal return. -/
def statusOf {Ctx : Type} : Except CppExc (CallResult Ctx) → Option Int
  | .ok r => some r.status
  | .error _ => none

/-- C1: for every collaborator behavior (boolean return, typed raise or
untyped raise, from the constructor or from the call) and every sink
configuration, `WinRoute_EnsureTopMetric` returns normally (the outer
exception channel is never `.error`) with a status that is one of
exactly `1`, `0`, `-1`. -/
theorem ensureTopMetric_total_status_range {Ctx : Type}
    (behavior : CollabBehavior) (errorSinkNonNull : Bool)
    (errorSinkContext : Ctx) :
    ∃ r : CallResult Ctx,
      WinRoute_EnsureTopMetric behavior errorSinkNonNull errorSinkContext
        = Except.ok r
      ∧ (r.status = 1 ∨ r.status = 0 ∨ r.status = -1) := by
  cases behavior with
  | ctorRaise e =>
      cases e with
      | typed msg =>
          exact ⟨_, rfl, Or.inr (Or.inr rfl)⟩
      | untyped =>
          exact ⟨_, rfl, Or.inr (Or.inr rfl)⟩
  | callReturn b =>
      cases b with
      | true => exact ⟨_, rfl, Or.inl rfl⟩
      | false => exact ⟨_, rfl, Or.inr (Or.inl rfl)⟩
  | callRaise e =>
      cases e with
      | typed msg =>
          exact ⟨_, rfl, Or.inr (Or.inr rfl)⟩
      | untyped =>
          exact ⟨_, rfl, Or.inr (Or.inr rfl)⟩

/-- C2: when `SetTopMetricForInterfaceByAlias` returns `true`, the
adapter returns status `1` and the error sink is never invoked,
whatever the sink pointer and context are. -/
theorem ensureTopMetric_callReturn_true {Ctx : Type}
    (errorSinkNonNull : Bool) (errorSinkContext : Ctx) :
    WinRoute_EnsureTopMetric (CollabBehavior.callReturn true)
      errorSinkNonNull errorSinkContext
      = Except.ok ⟨1, []⟩ := rfl

/-- C3: when `SetTopMetricForInterfaceByAlias` returns `false` without
raising (no matching interface), the adapter returns status `0` and the
error sink is never invoked. -/
theorem ensureTopMetric_callReturn_false {Ctx : Type}
    (errorSinkNonNull : Bool) (errorSinkContext : Ctx) :
    WinRoute_EnsureTopMetric (CollabBehavior.callReturn false)
      errorSinkNonNull errorSinkContext
      = Except.ok ⟨0, []⟩ := rfl

/-- C4 counterexample: the collaborator can raise a `std::exception`
whose `what()` message is the empty string; the adapter then invokes the
non-null sink with that empty message (length `0`), so the sink is not
always handed a non-empty message as the claim states. -/
theorem ensureTopMetric_c4_empty_message :
    WinRoute_EnsureTopMetric
      (CollabBehavior.callRaise (CppExc.typed "")) true (0 : Nat)
      = Except.ok ⟨-1, [("", 0)]⟩
    ∧ String.length "" = 0 := ⟨rfl, rfl⟩

/-- C4 (amended): when the collaborator raises a typed failure carrying
message `msg` (whether during the call or during construction) and the
sink is non-null, the adapter returns `-1` and invokes the sink exactly
once, with exactly the message of the failure — non-empty precisely when
that message is non-empty — and the exact context the caller supplied.
Invocation happens within the call, before it returns: in the embedding
the recorded invocation is part of the result of the very call. -/
theorem ensureTopMetric_typed_sink_delivery {Ctx : Type}
    (msg : String) (errorSinkContext : Ctx) :
    WinRoute_EnsureTopMetric
      (CollabBehavior.callRaise (CppExc.typed msg)) true errorSinkContext
      = Except.ok ⟨-1, [(msg, errorSinkContext)]⟩
    ∧ WinRoute_EnsureTopMetric
      (CollabBehavior.ctorRaise (CppExc.typed msg)) true errorSinkContext
      = Except.ok ⟨-1, [(msg, errorSinkContext)]⟩ := ⟨rfl, rfl⟩

/-- C5: when the collaborator raises an untyped failure (one not derived
from `std::exception`, whether during the call or during construction),
the adapter returns `-1` and the sink is invoked zero times even when it
is non-null. -/
theorem ensureTopMetric_untyped_silent {Ctx : Type}
    (errorSinkNonNull : Bool) (errorSinkContext : Ctx) :
    WinRoute_EnsureTopMetric (CollabBehavior.callRaise CppExc.untyped)
      errorSinkNonNull errorSinkContext
      = Except.ok ⟨-1, []⟩
    ∧ WinRoute_EnsureTopMetric (CollabBehavior.ctorRaise CppExc.untyped)
      errorSinkNonNull errorSinkContext
      = Except.ok ⟨-1, []⟩ := ⟨rfl, rfl⟩

/-- C6: when the sink pointer is null, any failure — typed or untyped,
from construction or from the call — still yields `-1` with zero sink
invocations: the `nullptr != errorSink` guard makes the invocation
branch unreachable, so the null callback is never called. -/
theorem ensureTopMetric_null_sink_safe {Ctx : Type}
    (e : CppExc) (errorSinkContext : Ctx) :
    WinRoute_EnsureTopMetric (CollabBehavior.callRaise e)
      false errorSinkContext
      = Except.ok ⟨-1, []⟩
    ∧ WinRoute_EnsureTopMetric (CollabBehavior.ctorRaise e)
      false errorSinkContext
      = Except.ok ⟨-1, []⟩ := by
  cases e with
  | typed msg => exact ⟨rfl, rfl⟩
  | untyped => exact ⟨rfl, rfl⟩

/-- C7: on every call the sink is invoked at most once, and any call
with at least one invocation returned `-1` — equivalently, every call
either invokes the sink zero times or returns `-1`, so calls returning
`1` or `0` never invoke it. Invocations are synchronous within the call
by construction: they are recorded in the result of that same call. -/
theorem ensureTopMetric_sink_at_most_once_only_on_failure {Ctx : Type}
    (behavior : CollabBehavior) (errorSinkNonNull : Bool)
    (errorSinkContext : Ctx) :
    ∃ r : CallResult Ctx,
      WinRoute_EnsureTopMetric behavior errorSinkNonNull errorSinkContext
        = Except.ok r
      ∧ r.sinkCalls.length ≤ 1
      ∧ (r.sinkCalls = [] ∨ r.status = -1) := by
  cases behavior with
  | ctorRaise e =>
      cases e with
      | typed msg =>
          cases errorSinkNonNull with
          | true => exact ⟨_, rfl, by simp, Or.inr rfl⟩
          | false => exact ⟨_, rfl, by simp, Or.inr rfl⟩
      | untyped => exact ⟨_, rfl, by simp, Or.inr rfl⟩
  | callReturn b =>
      cases b with
      | true => exact ⟨_, rfl, by simp, Or.inl rfl⟩
      | false => exact ⟨_, rfl, by simp, Or.inl rfl⟩
  | callRaise e =>
      cases e with
      | typed msg =>
          cases errorSinkNonNull with
          | true => exact ⟨_, rfl, by simp, Or.inr rfl⟩
          | false => exact ⟨_, rfl, by simp, Or.inr rfl⟩
      | untyped => exact ⟨_, rfl, by simp, Or.inr rfl⟩

/-- C8: on every call, either the sink is not invoked at all, or it is
invoked exactly once and the context it receives is the very
`errorSinkContext` value the caller passed in, unmodified. -/
theorem ensureTopMetric_context_passthrough {Ctx : Type}
    (behavior : CollabBehavior) (errorSinkNonNull : Bool)
    (errorSinkContext : Ctx) :
    ∃ r : CallResult Ctx,
      WinRoute_EnsureTopMetric behavior errorSinkNonNull errorSinkContext
        = Except.ok r
      ∧ (r.sinkCalls = []
         ∨ ∃ msg : String, r.sinkCalls = [(msg, errorSinkContext)]) := by
  cases behavior with
  | ctorRaise e =>
      cases e with
      | typed msg =>
          cases errorSinkNonNull with
          | true => exact ⟨_, rfl, Or.inr ⟨msg, rfl⟩⟩
          | false => exact ⟨_, rfl, Or.inl rfl⟩
      | untyped => exact ⟨_, rfl, Or.inl rfl⟩
  | callReturn b => exact ⟨_, rfl, Or.inl rfl⟩
  | callRaise e =>
      cases e with
      | typed msg =>
          cases errorSinkNonNull with
          | true => exact ⟨_, rfl, Or.inr ⟨msg, rfl⟩⟩
          | false => exact ⟨_, rfl, Or.inl rfl⟩
      | untyped => exact ⟨_, rfl, Or.inl rfl⟩

/-- C9: failures raised while constructing the fresh `NetworkInterfaces`
handle are absorbed by the same policy as failures from the lookup call:
a typed construction failure yields `-1` with the non-null sink invoked
once (and silently when the sink is null), and an untyped construction
failure yields `-1` with no sink invocation. -/
theorem ensureTopMetric_ctor_failure_policy {Ctx : Type}
    (msg : String) (errorSinkNonNull : Bool) (errorSinkContext : Ctx) :
    WinRoute_EnsureTopMetric (CollabBehavior.ctorRaise (CppExc.typed msg))
      true errorSinkContext
      = Except.ok ⟨-1, [(msg, errorSinkContext)]⟩
    ∧ WinRoute_EnsureTopMetric (CollabBehavior.ctorRaise (CppExc.typed msg))
      false errorSinkContext
      = Except.ok ⟨-1, []⟩
    ∧ WinRoute_EnsureTopMetric (CollabBehavior.ctorRaise CppExc.untyped)
      errorSinkNonNull errorSinkContext
      = Except.ok ⟨-1, []⟩ := ⟨rfl, rfl, rfl⟩

/-- C10: the returned status depends only on the collaborator outcome:
two calls with the same behavior but arbitrarily different sink
pointers and context values (even of different context types) return
equal statuses. -/
theorem ensureTopMetric_status_noninterference {Ctx₁ Ctx₂ : Type}
    (behavior : CollabBehavior)
    (sink₁ sink₂ : Bool) (ctx₁ : Ctx₁) (ctx₂ : Ctx₂) :
    statusOf (WinRoute_EnsureTopMetric behavior sink₁ ctx₁)
      = statusOf (WinRoute_EnsureTopMetric behavior sink₂ ctx₂) := by
  cases behavior with
  | ctorRaise e => cases e <;> rfl
  | callReturn b => rfl
  | callRaise e => cases e <;> rfl

end WinRoute
